import Mathlib

/-!
Verification development for the `data_cube_wcs` Django application
(a WCS 1.0.0 endpoint).  The definitions below are a shallow embedding of
the request-validation pipeline:

* `WebService_get` embeds the router `views.WebService.get` together with
  the field-level validation of `forms.BaseRequestForm` (required
  `ChoiceField`s for `service` and `request`).
* `GetCoverageForm_clean` embeds `forms.GetCoverageForm.clean`,
  the monolithic GetCoverage validator.  Python floats are modelled as
  rationals (`ℚ`); Python ints as `Int`; datetimes (results of
  `dateutil.parser.parse`) as `Int` timestamps.  The two external parsing
  primitives, `float()` and `dateutil.parser.parse`, are passed in as
  oracles `floatP : String → Option ℚ` and `dateP : String → Option Int`
  (`none` models a raised `ValueError`).  Python's `str.split(sep)` for
  the single-character separators used by the source (`","` and `"/"`)
  is embedded as the structurally recursive `pySplit`, and `'/' in s` as
  `pyContains`.
* A field value of `none` (for `Option`-typed fields) models a GET
  parameter that is absent or empty, i.e. one that Django's optional
  fields clean to `None`; optional `CharField`s clean the absent case to
  `""`, which is how `bbox`, `time` and `measurements` are modelled.
* `GetCoverageForm.clean` accumulates errors via `add_error` and can
  return early; two branches can also escape with an uncaught Python
  exception (an `UnboundLocalError` after the bare `except:` around the
  BBOX float parsing, and an `IndexError` inside the TIME range parsing),
  which the embedding makes explicit with a `crash` constructor.
-/

/-- Error entry as recorded by Django's `form.add_error(field, message)`:
a (field name, message/OGC exception code) pair. -/
abbrev Err := String × String

/-- `forms.AVAILABLE_INPUT_CRS`. -/
def AVAILABLE_INPUT_CRS : List String := ["EPSG:4326"]

/-- Keys of the module-level dict `forms.AVAILABLE_FORMATS`
(`{'GeoTIFF': 'image/tiff', 'netCDF': 'application/x-netcdf'}`), in
insertion order.  These are the choices of the `format` `ChoiceField`. -/
def AVAILABLE_FORMATS : List String := ["GeoTIFF", "netCDF"]

/-- Choices of `BaseRequestForm.request`. -/
def REQUEST_CHOICES : List String := ["GetCapabilities", "DescribeCoverage", "GetCoverage"]

/-- Choices of `BaseRequestForm.service` (the form accepts both). -/
def SERVICE_CHOICES : List String := ["WCS", "WMS"]

/-- The coverage metadata consumed by the validator, mirroring
`models.CoverageOffering` together with its accessors:
`temporal_domain` is the result of `get_temporal_domain()` (a list of
iso-format strings), `measurements` the result of `get_measurements()`
(band names in rangeset order) and `formats` the names in
`get_available_formats()`. -/
structure CoverageOffering where
  name : String
  min_latitude : ℚ
  max_latitude : ℚ
  min_longitude : ℚ
  max_longitude : ℚ
  start_time : Int
  end_time : Int
  temporal_domain : List String
  measurements : List String
  formats : List String
deriving DecidableEq

/-- Splitting a character list at every occurrence of `c`; always
returns at least one (possibly empty) chunk, like Python's
`str.split(sep)`. -/
def splitChar (c : Char) : List Char → List (List Char)
  | [] => [[]]
  | ch :: rest =>
    if ch = c then [] :: splitChar c rest
    else
      match splitChar c rest with
      | [] => [[ch]]
      | l :: ls => (ch :: l) :: ls

/-- Python's `s.split(c)` for a one-character separator `c`:
`"a,,b".split(",") == ["a", "", "b"]`, `"".split(",") == [""]`. -/
def pySplit (s : String) (c : Char) : List String :=
  (splitChar c s.data).map (fun l => String.mk l)

/-- Python's `c in s` for a character `c`. -/
def pyContains (s : String) (c : Char) : Bool :=
  s.data.contains c

/-- `utils._ranges_intersect(x, y)`: `x[0] <= y[1] and y[0] <= x[1]`. -/
def _ranges_intersect (x y : ℚ × ℚ) : Bool :=
  decide (x.1 ≤ y.2) && decide (y.1 ≤ x.2)

/-- Python truthiness of an optional float (`None` and `0.0` are falsy),
as used by `cleaned_data.get('resx', None) and cleaned_data.get('resy', None)`. -/
def truthyQ (o : Option ℚ) : Bool :=
  decide (o.getD 0 ≠ 0)

/-- Python truthiness of an optional int (`None` and `0` are falsy). -/
def truthyInt (o : Option Int) : Bool :=
  decide (o.getD 0 ≠ 0)

/-- Python truthiness of a string (`''` is falsy). -/
def truthyStr (s : String) : Bool :=
  decide (s ≠ "")

/-- The `cleaned_data` produced by a successful `GetCoverageForm.clean`
run: exactly the keys the validator writes
(`latitude`, `longitude`, `time_ranges`, `times`, `resx`, `resy`,
`measurements`). -/
structure ValidatedData where
  latitude : ℚ × ℚ
  longitude : ℚ × ℚ
  time_ranges : List (Int × Int)
  times : List Int
  resx : ℚ
  resy : ℚ
  measurements : List String
deriving DecidableEq

/-- Outcome of one validation gate inside `clean`:
`ret errs` models `add_error(...); return`, `crash errs` models an
uncaught Python exception escaping `clean` with `errs` already recorded,
and `cont errs v` models falling through to the next statement with
`errs` recorded so far. -/
inductive GateStep (α : Type) where
  | ret (errs : List Err)
  | crash (errs : List Err)
  | cont (errs : List Err) (val : α)
deriving DecidableEq

/-- Overall outcome of `GetCoverageForm.clean`: the form is valid
(`ok`), invalid with the recorded errors (`errors`), or `clean` escaped
with an uncaught Python exception (`crash`). -/
inductive CleanResult where
  | ok (v : ValidatedData)
  | errors (errs : List Err)
  | crash (errs : List Err)
deriving DecidableEq

/-- The `cleaned_data` handed to `GetCoverageForm.clean` by Django's
field-level cleaning, restricted to the fields the validator reads.
`coverage` is the resolved `ModelChoiceField` value (`none` when the
parameter is missing or names no catalog entry, in which case the key is
absent from `cleaned_data`).  `format` is kept raw (`none` = missing);
`clean` never reads it, the `ChoiceField` validates it. -/
structure GetCoverageData where
  coverage : Option CoverageOffering
  bbox : String
  time : String
  width : Option Int
  height : Option Int
  resx : Option ℚ
  resy : Option ℚ
  format : Option String
  measurements : String
deriving DecidableEq

/-- `len(list(set(a) & set(b)))`: the number of distinct strings common
to `a` and `b`. -/
def pyIntersectCard (a b : List String) : Nat :=
  (b.dedup.filter (fun t => decide (t ∈ a))).length

/-- The BBOX gate of `GetCoverageForm.clean` (forms.py lines 123-153).
With a truthy `bbox`: split on `","`; wrong arity returns
`InvalidParameterValue`; then tokens 1,3,0,2 go through `float()` — a
parse failure runs the bare `except:` branch, which records
`InvalidParameterValue` but has no `return`, so the following
`validation_cases` list hits an unbound `latitude_range`/
`longitude_range` and `clean` dies with an `UnboundLocalError` (`crash`).
Well-ordering is `latitude_range != tuple(sorted(latitude_range))`,
i.e. first component greater than second.  A falsy `bbox` defaults both
ranges to the coverage extent. -/
def bboxGate (floatP : String → Option ℚ) (cov : CoverageOffering) (bbox : String) :
    GateStep ((ℚ × ℚ) × (ℚ × ℚ)) :=
  if truthyStr bbox then
    let split_bbox := pySplit bbox ','
    if ¬(split_bbox.length = 4 ∨ split_bbox.length = 6) then
      .ret [("bbox", "InvalidParameterValue")]
    else
      match floatP (split_bbox.getD 1 ""), floatP (split_bbox.getD 3 ""),
            floatP (split_bbox.getD 0 ""), floatP (split_bbox.getD 2 "") with
      | some lat0, some lat1, some lon0, some lon1 =>
        if !(_ranges_intersect (lat0, lat1) (cov.min_latitude, cov.max_latitude)) ||
           !(_ranges_intersect (lon0, lon1) (cov.min_longitude, cov.max_longitude)) ||
           decide (lat0 > lat1) || decide (lon0 > lon1) then
          .ret [("bbox", "InvalidParameterValue")]
        else
          .cont [] ((lat0, lat1), (lon0, lon1))
      | _, _, _, _ => .crash [("bbox", "InvalidParameterValue")]
  else
    .cont [] ((cov.min_latitude, cov.max_latitude), (cov.min_longitude, cov.max_longitude))

/-- Result of parsing a comma-separated list of `start/end` time ranges
(the `'/' in time` branch): success, a `ValueError` from
`dateutil.parser.parse` (caught by `clean`), or an `IndexError` from
`r[1]` on a token without `'/'` (uncaught). -/
inductive TimeParse where
  | ok (l : List (Int × Int))
  | valueError
  | indexError
deriving DecidableEq

/-- `list(map(lambda r: (parser.parse(r[0]), parser.parse(r[1])), map(lambda r: r.split("/"), time_range)))`,
processed left to right; per token, `r[0]` is parsed first, then `r[1]`
is indexed (IndexError when the token had no `'/'`), then parsed. -/
def parseTimeRanges (dateP : String → Option Int) : List String → TimeParse
  | [] => .ok []
  | t :: rest =>
    match dateP ((pySplit t '/').getD 0 "") with
    | none => .valueError
    | some a =>
      if (pySplit t '/').length < 2 then .indexError
      else
        match dateP ((pySplit t '/').getD 1 "") with
        | none => .valueError
        | some b =>
          match parseTimeRanges dateP rest with
          | .ok l => .ok ((a, b) :: l)
          | e => e

/-- `list(map(lambda t: parser.parse(t), date_list))`: all instants must
parse, a `ValueError` (`none`) anywhere makes the whole list fail. -/
def parseAll (dateP : String → Option Int) : List String → Option (List Int)
  | [] => some []
  | t :: rest =>
    match dateP t with
    | none => none
    | some v =>
      match parseAll dateP rest with
      | none => none
      | some vs => some (v :: vs)

/-- The TIME gate of `GetCoverageForm.clean` (forms.py lines 155-183).
A `'/'` anywhere in the value routes the whole field as range-typed.
For instant lists the set-cardinality membership check
`len(list(set(valid_times) & set(date_list))) != len(date_list)` records
`InvalidParameterValue` *without returning*, so processing falls through
with the error recorded.  A falsy `time` defaults to the single range
`[(start_time, end_time)]` with no instants. -/
def timeGate (dateP : String → Option Int) (cov : CoverageOffering) (time : String) :
    GateStep (List (Int × Int) × List Int) :=
  if truthyStr time then
    if pyContains time '/' then
      match parseTimeRanges dateP (pySplit time ',') with
      | .valueError => .ret [("time", "InvalidParameterValue")]
      | .indexError => .crash []
      | .ok l => .cont [] (l, [])
    else
      match parseAll dateP (pySplit time ',') with
      | none => .ret [("time", "InvalidParameterValue")]
      | some times =>
        if pyIntersectCard cov.temporal_domain (pySplit time ',') ≠ (pySplit time ',').length then
          .cont [("time", "InvalidParameterValue")] ([], times)
        else
          .cont [] ([], times)
  else
    .cont [] ([(cov.start_time, cov.end_time)], [])

/-- The grid-sizing gate of `GetCoverageForm.clean` (forms.py lines
185-204).  Pairings are selected by Python truthiness (absent and zero
values are both falsy).  Sign violations return `InvalidParameterValue`
on the pair; otherwise the resolution is passed through (resx/resy) or
derived from the already-resolved extents (width/height).  With no
usable pairing, `MissingParameterValue` is recorded on all four fields
in source order resx, resy, height, width. -/
def gridGate (lat lon : ℚ × ℚ) (resx resy : Option ℚ) (width height : Option Int) :
    GateStep (ℚ × ℚ) :=
  if truthyQ resx && truthyQ resy then
    if decide (resx.getD 0 < 0) || decide (resy.getD 0 > 0) then
      .ret [("resx", "InvalidParameterValue"), ("resy", "InvalidParameterValue")]
    else
      .cont [] (resx.getD 0, resy.getD 0)
  else if truthyInt width && truthyInt height then
    if decide (height.getD 0 < 0) || decide (width.getD 0 < 0) then
      .ret [("height", "InvalidParameterValue"), ("width", "InvalidParameterValue")]
    else
      .cont [] ((lon.2 - lon.1) / (width.getD 0 : ℚ),
                -1 * (lat.2 - lat.1) / (height.getD 0 : ℚ))
  else
    .ret [("resx", "MissingParameterValue"), ("resy", "MissingParameterValue"),
          ("height", "MissingParameterValue"), ("width", "MissingParameterValue")]

/-- The MEASUREMENTS gate of `GetCoverageForm.clean` (forms.py lines
206-215): with a truthy value, the set-cardinality check
`len(list(set(valid_measurements) & set(request_measurements))) != len(request_measurements)`
records `InvalidParameterValue` (no return — it is the last gate);
otherwise `cleaned_data['measurements']` becomes the token list.  Absent
measurements default to the coverage's full list.  Returns the recorded
errors and the resulting measurement list (only meaningful when no
errors were recorded). -/
def measGate (cov : CoverageOffering) (measurements : String) : List Err × List String :=
  if truthyStr measurements then
    if pyIntersectCard cov.measurements (pySplit measurements ',') ≠
        (pySplit measurements ',').length then
      ([("measurements", "InvalidParameterValue")], [])
    else
      ([], pySplit measurements ',')
  else
    ([], cov.measurements)

/-- `forms.GetCoverageForm.clean` (forms.py lines 101-218): coverage
presence, the BBOX-or-TIME presence gate, then the bbox, time,
grid-sizing and measurements gates in source order, accumulating
`add_error` entries and modelling early `return`s and uncaught Python
exceptions.  (The trailing `resampling` assignment has no error path and
is not part of any validated field modelled here.) -/
def GetCoverageForm_clean (floatP : String → Option ℚ) (dateP : String → Option Int)
    (d : GetCoverageData) : CleanResult :=
  match d.coverage with
  | none => .errors [("coverage", "MissingParameterValue")]
  | some cov =>
    if !(truthyStr d.bbox || truthyStr d.time) then
      .errors [("bbox", "MissingParameterValue"), ("time", "MissingParameterValue")]
    else
      match bboxGate floatP cov d.bbox with
      | .ret e => .errors e
      | .crash e => .crash e
      | .cont e1 latlon =>
        match timeGate dateP cov d.time with
        | .ret e => .errors (e1 ++ e)
        | .crash e => .crash (e1 ++ e)
        | .cont e2 trts =>
          match gridGate latlon.1 latlon.2 d.resx d.resy d.width d.height with
          | .ret e => .errors (e1 ++ e2 ++ e)
          | .crash e => .crash (e1 ++ e2 ++ e)
          | .cont e3 rxy =>
            match measGate cov d.measurements with
            | (e4, meas) =>
              if e1 ++ e2 ++ e3 ++ e4 = [] then
                .ok ⟨latlon.1, latlon.2, trts.1, trts.2, rxy.1, rxy.2, meas⟩
              else
                .errors (e1 ++ e2 ++ e3 ++ e4)

/-- Field-level cleaning of the `format` `ChoiceField`
(forms.py lines 79-83): required, choices are the keys of the global
`AVAILABLE_FORMATS`, with both the `required` and `invalid_choice`
error messages overridden to `InvalidFormat`. -/
def format_field_errors (fmt : Option String) : List Err :=
  match fmt with
  | none => [("format", "InvalidFormat")]
  | some v => if v ∈ AVAILABLE_FORMATS then [] else [("format", "InvalidFormat")]

/-- Overall outcome of `GetCoverageForm` validation (field cleaning of
`format` plus `clean`). -/
inductive FormResult where
  | ok (format : String) (v : ValidatedData)
  | invalid (errs : List Err)
  | crash (errs : List Err)
deriving DecidableEq

/-- `GetCoverageForm.is_valid()` over the modelled fields: Django runs
field-level cleaning (here, the `format` `ChoiceField`) and then
`clean`; the form is valid iff no error was recorded anywhere. -/
def validateGetCoverage (floatP : String → Option ℚ) (dateP : String → Option Int)
    (d : GetCoverageData) : FormResult :=
  match GetCoverageForm_clean floatP dateP d with
  | .crash e => .crash (format_field_errors d.format ++ e)
  | .errors e => .invalid (format_field_errors d.format ++ e)
  | .ok v =>
    if format_field_errors d.format = [] then .ok (d.format.getD "") v
    else .invalid (format_field_errors d.format)

/-- Outcome of `views.WebService.get`: a rendered
`ServiceException.xml` response, a dispatch to one of the three WCS
handler views, or an uncaught Python exception. -/
inductive RouteResult where
  | exception (code : String)
  | dispatch (service request_ : String)
  | crash
deriving DecidableEq

/-- A required `ChoiceField` accepts exactly a present value among its
choices (absent and empty values fail `required`, others
`invalid_choice`). -/
def optChoice (o : Option String) (choices : List String) : Bool :=
  match o with
  | none => false
  | some v => decide (v ∈ choices)

/-- `forms.BaseRequestForm.is_valid()`: `service` and `request` are
required `ChoiceField`s (`version` is optional and unconstrained). -/
def base_request_form_valid (service request_ : Option String) : Bool :=
  optChoice service SERVICE_CHOICES && optChoice request_ REQUEST_CHOICES

/-- `views.WebService.get` (views.py lines 13-36): an invalid base form
renders a `ServiceException` with code `InvalidParameterValue`;
otherwise the handler is looked up in
`view_mapping = {'WCS': {...}}[service][request]` — for the accepted
choice `service = "WMS"` this raises an uncaught `KeyError`. -/
def WebService_get (service request_ : Option String) : RouteResult :=
  if base_request_form_valid service request_ then
    match service with
    | some "WCS" => .dispatch "WCS" (request_.getD "GetCapabilities")
    | _ => .crash
  else
    .exception "InvalidParameterValue"

lemma pyIntersectCard_eq_length_iff (a toks : List String) :
    pyIntersectCard a toks = toks.length ↔ (∀ t ∈ toks, t ∈ a) ∧ toks.Nodup := by
  unfold pyIntersectCard
  constructor
  · intro h
    have hsub : List.Sublist (toks.dedup.filter (fun t => decide (t ∈ a))) toks :=
      (List.filter_sublist _).trans (List.dedup_sublist toks)
    have heq : toks.dedup.filter (fun t => decide (t ∈ a)) = toks := hsub.eq_of_length h
    refine ⟨fun t ht => ?_, ?_⟩
    · have hmem : t ∈ toks.dedup.filter (fun t => decide (t ∈ a)) := by rw [heq]; exact ht
      simpa using (List.mem_filter.1 hmem).2
    · rw [← heq]
      exact (toks.nodup_dedup).filter _
  · rintro ⟨h1, h2⟩
    rw [List.dedup_eq_self.2 h2, List.filter_eq_self.2 (fun t ht => decide_eq_true (h1 t ht))]

lemma gridGate_not_crash (lat lon : ℚ × ℚ) (rx ry : Option ℚ) (w h : Option Int) (e : List Err) :
    gridGate lat lon rx ry w h ≠ GateStep.crash e := by
  unfold gridGate
  split_ifs <;> simp

lemma gridGate_cont_errs (lat lon : ℚ × ℚ) (rx ry : Option ℚ) (w h : Option Int)
    (e : List Err) (v : ℚ × ℚ) (hg : gridGate lat lon rx ry w h = GateStep.cont e v) :
    e = [] := by
  unfold gridGate at hg
  split_ifs at hg <;> simp_all

/-- C1: a GetCoverage request against the coverage with spatial extent
lat[-40,-10], lon[110,150], formats ["GeoTIFF"] and measurements
["red","green","blue"], with BBOX="120,-30,130,-20", no TIME, WIDTH=100,
HEIGHT=100, FORMAT="GeoTIFF", validates successfully and produces
latitude range (-30,-20) and longitude range (120,130) (the parsed BBOX,
not the coverage defaults), resx = (130-120)/100 = 1/10,
resy = -((-20)-(-30))/100 = -1/10, the coverage's full measurement
list, and a time selection that is the single range over the coverage's
full temporal extent with no discrete instants.  (`float()` is
abstract, so its values on the four BBOX tokens are hypotheses.) -/
theorem c1_getcoverage_scenario (floatP : String → Option ℚ) (dateP : String → Option Int)
    (st en : Int) (dom : List String)
    (h120 : floatP "120" = some 120) (hm30 : floatP "-30" = some (-30))
    (h130 : floatP "130" = some 130) (hm20 : floatP "-20" = some (-20)) :
    validateGetCoverage floatP dateP
      ⟨some ⟨"ls8_usgs_sr_scene", -40, -10, 110, 150, st, en, dom,
             ["red", "green", "blue"], ["GeoTIFF"]⟩,
       "120,-30,130,-20", "", some 100, some 100, none, none, some "GeoTIFF", ""⟩ =
    FormResult.ok "GeoTIFF"
      ⟨(-30, -20), (120, 130), [(st, en)], [], 1/10, -1/10, ["red", "green", "blue"]⟩ := by
  simp [validateGetCoverage, GetCoverageForm_clean, bboxGate, timeGate, gridGate, measGate,
    format_field_errors, truthyStr, truthyQ, truthyInt, pySplit, splitChar, pyContains,
    _ranges_intersect, pyIntersectCard, parseAll, parseTimeRanges,
    h120, hm30, h130, hm20, AVAILABLE_FORMATS]
  norm_num

/-- Closed witness for `c1_getcoverage_scenario`, instantiating the
`float()` oracle with a concrete lookup. -/
theorem c1_getcoverage_scenario_witness :
    validateGetCoverage
      (fun s => if s = "120" then some 120 else if s = "-30" then some (-30)
        else if s = "130" then some 130 else if s = "-20" then some (-20) else none)
      (fun _ => none)
      ⟨some ⟨"ls8_usgs_sr_scene", -40, -10, 110, 150, 5, 9, ["2020-01-01"],
             ["red", "green", "blue"], ["GeoTIFF"]⟩,
       "120,-30,130,-20", "", some 100, some 100, none, none, some "GeoTIFF", ""⟩ =
    FormResult.ok "GeoTIFF"
      ⟨(-30, -20), (120, 130), [(5, 9)], [], 1/10, -1/10, ["red", "green", "blue"]⟩ :=
  c1_getcoverage_scenario _ _ 5 9 ["2020-01-01"] rfl rfl rfl rfl

/-- C3: splitting BBOX on "," into an arity other than 4 or 6 yields a
single recorded InvalidParameterValue validation failure on bbox (second
conjunct), but a BBOX token that `float()` cannot parse does NOT: the
bare `except:` branch records InvalidParameterValue and then, lacking a
`return`, evaluation of `validation_cases` raises an uncaught
`UnboundLocalError` (first conjunct, the `crash` outcome), contradicting
the claim (and the docstring's fail-fast contract); evaluated at
BBOX="a,b,c,d" with no token parseable. -/
theorem c3_bbox_parse_failure_crashes :
    GetCoverageForm_clean (fun _ => none) (fun _ => none)
      ⟨some ⟨"ls8_usgs_sr_scene", -40, -10, 110, 150, 5, 9, ["2020-01-01"],
             ["red", "green", "blue"], ["GeoTIFF"]⟩,
       "a,b,c,d", "", some 100, some 100, none, none, some "GeoTIFF", ""⟩ =
      CleanResult.crash [("bbox", "InvalidParameterValue")] ∧
    GetCoverageForm_clean (fun _ => none) (fun _ => none)
      ⟨some ⟨"ls8_usgs_sr_scene", -40, -10, 110, 150, 5, 9, ["2020-01-01"],
             ["red", "green", "blue"], ["GeoTIFF"]⟩,
       "1,2,3", "", some 100, some 100, none, none, some "GeoTIFF", ""⟩ =
      CleanResult.errors [("bbox", "InvalidParameterValue")] :=
  ⟨by decide, by decide⟩

/-- C4: when the resolved coverage is present but both BBOX and TIME are
absent (cleaned to the falsy empty string), `clean` records
MissingParameterValue on both the bbox and the time field and returns
immediately, so no further gate is evaluated. -/
theorem c4_missing_bbox_and_time (floatP : String → Option ℚ) (dateP : String → Option Int)
    (d : GetCoverageData) (cov : CoverageOffering)
    (hcov : d.coverage = some cov) (hb : d.bbox = "") (ht : d.time = "") :
    GetCoverageForm_clean floatP dateP d =
      CleanResult.errors
        [("bbox", "MissingParameterValue"), ("time", "MissingParameterValue")] := by
  simp [GetCoverageForm_clean, hcov, hb, ht, truthyStr]

/-- Closed witness for `c4_missing_bbox_and_time`. -/
theorem c4_missing_bbox_and_time_witness :
    GetCoverageForm_clean (fun _ => none) (fun _ => none)
      ⟨some ⟨"ls8_usgs_sr_scene", -40, -10, 110, 150, 5, 9, ["2020-01-01"],
             ["red", "green", "blue"], ["GeoTIFF"]⟩,
       "", "", some 100, some 100, none, none, some "GeoTIFF", ""⟩ =
      CleanResult.errors
        [("bbox", "MissingParameterValue"), ("time", "MissingParameterValue")] :=
  c4_missing_bbox_and_time _ _ _ _ rfl rfl rfl

/-- C2: whenever the BBOX value splits on "," into 4 or 6 tokens whose
four coordinate tokens parse, and the parsed latitude range (miny,maxy)
or longitude range (minx,maxx) is not well-ordered (min > max), or
either range fails the inclusive overlap test `_ranges_intersect`
against the coverage's advertised spatial extent, `clean` fails with
exactly one InvalidParameterValue recorded on the bbox field. -/
theorem c2_bbox_range_validation (floatP : String → Option ℚ) (dateP : String → Option Int)
    (cov : CoverageOffering) (d : GetCoverageData) (lat0 lat1 lon0 lon1 : ℚ)
    (hcov : d.coverage = some cov)
    (hbbox : d.bbox ≠ "")
    (harity : (pySplit d.bbox ',').length = 4 ∨ (pySplit d.bbox ',').length = 6)
    (h1 : floatP ((pySplit d.bbox ',').getD 1 "") = some lat0)
    (h3 : floatP ((pySplit d.bbox ',').getD 3 "") = some lat1)
    (h0 : floatP ((pySplit d.bbox ',').getD 0 "") = some lon0)
    (h2 : floatP ((pySplit d.bbox ',').getD 2 "") = some lon1)
    (hbad : lat0 > lat1 ∨ lon0 > lon1 ∨
      _ranges_intersect (lat0, lat1) (cov.min_latitude, cov.max_latitude) = false ∨
      _ranges_intersect (lon0, lon1) (cov.min_longitude, cov.max_longitude) = false) :
    GetCoverageForm_clean floatP dateP d =
      CleanResult.errors [("bbox", "InvalidParameterValue")] := by
  have hcond : (!(_ranges_intersect (lat0, lat1) (cov.min_latitude, cov.max_latitude)) ||
      !(_ranges_intersect (lon0, lon1) (cov.min_longitude, cov.max_longitude)) ||
      decide (lat0 > lat1) || decide (lon0 > lon1)) = true := by
    rcases hbad with h | h | h | h <;> simp [h]
  have hb : bboxGate floatP cov d.bbox = .ret [("bbox", "InvalidParameterValue")] := by
    unfold bboxGate
    rw [if_pos (by simp [truthyStr, hbbox] : truthyStr d.bbox = true)]
    dsimp only
    rw [if_neg (not_not_intro harity), h1, h3, h0, h2]
    dsimp only
    rw [if_pos hcond]
  simp [GetCoverageForm_clean, hcov, truthyStr, hbbox, hb]

/-- Closed witness for `c2_bbox_range_validation`: the swapped bbox
"10,10,-10,-10" (latitude range (10,-10), longitude range (10,-10)). -/
theorem c2_bbox_range_validation_witness :
    GetCoverageForm_clean
      (fun s => if s = "10" then some 10 else if s = "-10" then some (-10) else none)
      (fun _ => none)
      ⟨some ⟨"ls8_usgs_sr_scene", -40, -10, 110, 150, 5, 9, ["2020-01-01"],
             ["red", "green", "blue"], ["GeoTIFF"]⟩,
       "10,10,-10,-10", "", some 100, some 100, none, none, some "GeoTIFF", ""⟩ =
      CleanResult.errors [("bbox", "InvalidParameterValue")] :=
  c2_bbox_range_validation _ _ _ _ 10 (-10) 10 (-10) rfl (by decide) (by decide)
    rfl rfl rfl rfl (by decide)

/-- C5 counterexample to the claim as stated: with temporal domain
["2020-01-01T00:00:00"] and TIME =
"2020-01-01T00:00:00,2020-01-01T00:00:00", every requested instant
appears in the coverage's temporal domain (first conjunct), yet the
set-cardinality check (`len(list(set(valid_times) & set(date_list)))`
deduplicates the request) records InvalidParameterValue on time and
validation fails (second conjunct). -/
theorem c5_duplicate_instants_counterexample :
    (∀ t ∈ pySplit "2020-01-01T00:00:00,2020-01-01T00:00:00" ',',
        t ∈ (["2020-01-01T00:00:00"] : List String)) ∧
    GetCoverageForm_clean (fun _ => none) (fun _ => some 0)
      ⟨some ⟨"ls8_usgs_sr_scene", -40, -10, 110, 150, 5, 9, ["2020-01-01T00:00:00"],
             ["red", "green", "blue"], ["GeoTIFF"]⟩,
       "", "2020-01-01T00:00:00,2020-01-01T00:00:00", some 100, some 100, none, none,
       some "GeoTIFF", ""⟩ =
      CleanResult.errors [("time", "InvalidParameterValue")] :=
  ⟨by decide, by decide⟩

/-- C5 amended: for a TIME value with no '/' whose instants all parse,
if some comma-separated instant does not appear in the coverage's
temporal domain then validation fails with InvalidParameterValue
recorded on the time field; and the time gate passes with no error when
every requested instant appears in the temporal domain AND the instants
are pairwise distinct (the set-cardinality check also rejects
duplicates). -/
theorem c5_time_membership_amended (floatP : String → Option ℚ) (dateP : String → Option Int)
    (cov : CoverageOffering) (d : GetCoverageData) (ts : List Int) (pr : (ℚ × ℚ) × (ℚ × ℚ))
    (hcov : d.coverage = some cov)
    (ht : d.time ≠ "")
    (hns : pyContains d.time '/' = false)
    (hparse : parseAll dateP (pySplit d.time ',') = some ts)
    (hbb : bboxGate floatP cov d.bbox = .cont [] pr) :
    ((∃ t ∈ pySplit d.time ',', t ∉ cov.temporal_domain) →
      ∃ errs, GetCoverageForm_clean floatP dateP d = CleanResult.errors errs ∧
        ("time", "InvalidParameterValue") ∈ errs) ∧
    ((∀ t ∈ pySplit d.time ',', t ∈ cov.temporal_domain) → (pySplit d.time ',').Nodup →
      timeGate dateP cov d.time = GateStep.cont [] ([], ts)) := by
  constructor
  · rintro ⟨t, htm, htn⟩
    have hcard : pyIntersectCard cov.temporal_domain (pySplit d.time ',') ≠
        (pySplit d.time ',').length := by
      intro hq
      exact htn (((pyIntersectCard_eq_length_iff _ _).1 hq).1 t htm)
    have htg : timeGate dateP cov d.time =
        GateStep.cont [("time", "InvalidParameterValue")] ([], ts) := by
      unfold timeGate
      rw [if_pos (by simp [truthyStr, ht] : truthyStr d.time = true)]
      rw [if_neg (by simp [hns])]
      rw [hparse]
      dsimp only
      rw [if_pos hcard]
    unfold GetCoverageForm_clean
    rw [hcov]
    dsimp only
    rw [if_neg (by simp [truthyStr, ht])]
    rw [hbb]
    dsimp only
    rw [htg]
    dsimp only
    rcases hgg : gridGate pr.1 pr.2 d.resx d.resy d.width d.height with e | e | ⟨e3, v⟩
    · exact ⟨_, rfl, by simp⟩
    · exact absurd hgg (gridGate_not_crash _ _ _ _ _ _ _)
    · have he3 : e3 = [] := gridGate_cont_errs _ _ _ _ _ _ _ _ hgg
      subst he3
      dsimp only
      rw [if_neg (by simp)]
      exact ⟨_, rfl, by simp⟩
  · intro hall hnd
    have hcard : pyIntersectCard cov.temporal_domain (pySplit d.time ',') =
        (pySplit d.time ',').length :=
      (pyIntersectCard_eq_length_iff _ _).2 ⟨hall, hnd⟩
    unfold timeGate
    rw [if_pos (by simp [truthyStr, ht] : truthyStr d.time = true)]
    rw [if_neg (by simp [hns])]
    rw [hparse]
    dsimp only
    rw [if_neg (not_not_intro hcard)]

/-- Closed witness for `c5_time_membership_amended`: the scenario
TIME="2020-01-01,2020-01-02" against temporal domain ["2020-01-01"]
fails with InvalidParameterValue recorded on time. -/
theorem c5_time_membership_amended_witness :
    ∃ errs,
      GetCoverageForm_clean (fun _ => none)
        (fun s => if s = "2020-01-01" then some 18262
          else if s = "2020-01-02" then some 18263 else none)
        ⟨some ⟨"ls8_usgs_sr_scene", -40, -10, 110, 150, 5, 9, ["2020-01-01"],
               ["red", "green", "blue"], ["GeoTIFF"]⟩,
         "", "2020-01-01,2020-01-02", some 100, some 100, none, none,
         some "GeoTIFF", ""⟩ = CleanResult.errors errs ∧
      ("time", "InvalidParameterValue") ∈ errs :=
  (c5_time_membership_amended (fun _ => none)
    (fun s => if s = "2020-01-01" then some 18262
      else if s = "2020-01-02" then some 18263 else none)
    ⟨"ls8_usgs_sr_scene", -40, -10, 110, 150, 5, 9, ["2020-01-01"],
     ["red", "green", "blue"], ["GeoTIFF"]⟩
    ⟨some ⟨"ls8_usgs_sr_scene", -40, -10, 110, 150, 5, 9, ["2020-01-01"],
           ["red", "green", "blue"], ["GeoTIFF"]⟩,
     "", "2020-01-01,2020-01-02", some 100, some 100, none, none,
     some "GeoTIFF", ""⟩
    [18262, 18263] ((-40, -10), (110, 150))
    rfl (by decide) (by decide) (by decide) rfl).1
    ⟨"2020-01-02", by decide, by decide⟩

/-- C6: when a request reaches the grid-sizing gate and neither the
pair {resx, resy} nor the pair {width, height} is fully supplied (at
least one field of each pair is absent), `clean` records
MissingParameterValue on all four fields resx, resy, height and width
and returns. -/
theorem c6_missing_grid_pairings (floatP : String → Option ℚ) (dateP : String → Option Int)
    (cov : CoverageOffering) (d : GetCoverageData)
    (pr : (ℚ × ℚ) × (ℚ × ℚ)) (e2 : List Err) (trts : List (Int × Int) × List Int)
    (hcov : d.coverage = some cov)
    (hpresent : d.bbox ≠ "" ∨ d.time ≠ "")
    (hbb : bboxGate floatP cov d.bbox = .cont [] pr)
    (htg : timeGate dateP cov d.time = .cont e2 trts)
    (hr : d.resx = none ∨ d.resy = none)
    (hw : d.width = none ∨ d.height = none) :
    GetCoverageForm_clean floatP dateP d =
      CleanResult.errors (e2 ++
        [("resx", "MissingParameterValue"), ("resy", "MissingParameterValue"),
         ("height", "MissingParameterValue"), ("width", "MissingParameterValue")]) := by
  have hgg : gridGate pr.1 pr.2 d.resx d.resy d.width d.height =
      GateStep.ret [("resx", "MissingParameterValue"), ("resy", "MissingParameterValue"),
        ("height", "MissingParameterValue"), ("width", "MissingParameterValue")] := by
    unfold gridGate
    rw [if_neg (by rcases hr with h | h <;> simp [truthyQ, h])]
    rw [if_neg (by rcases hw with h | h <;> simp [truthyInt, h])]
  unfold GetCoverageForm_clean
  rw [hcov]
  dsimp only
  rw [if_neg (by rcases hpresent with h | h <;> simp [truthyStr, h])]
  rw [hbb]
  dsimp only
  rw [htg]
  dsimp only
  rw [hgg]
  simp

/-- Closed witness for `c6_missing_grid_pairings`: a request with a
valid time, no bbox, resy alone and height alone supplied. -/
theorem c6_missing_grid_pairings_witness :
    GetCoverageForm_clean (fun _ => none) (fun _ => some 0)
      ⟨some ⟨"ls8_usgs_sr_scene", -40, -10, 110, 150, 5, 9, ["2020-01-01"],
             ["red", "green", "blue"], ["GeoTIFF"]⟩,
       "", "2020-01-01", none, some 100, none, some (-1), some "GeoTIFF", ""⟩ =
      CleanResult.errors
        ([] ++
          [("resx", "MissingParameterValue"), ("resy", "MissingParameterValue"),
           ("height", "MissingParameterValue"), ("width", "MissingParameterValue")]) :=
  c6_missing_grid_pairings (fun _ => none) (fun _ => some 0)
    ⟨"ls8_usgs_sr_scene", -40, -10, 110, 150, 5, 9, ["2020-01-01"],
     ["red", "green", "blue"], ["GeoTIFF"]⟩
    ⟨some ⟨"ls8_usgs_sr_scene", -40, -10, 110, 150, 5, 9, ["2020-01-01"],
           ["red", "green", "blue"], ["GeoTIFF"]⟩,
     "", "2020-01-01", none, some 100, none, some (-1), some "GeoTIFF", ""⟩
    ((-40, -10), (110, 150)) [] ([], [0])
    rfl (Or.inr (by decide)) rfl (by decide) (Or.inl rfl) (Or.inl rfl)

/-- C7 counterexample to the claim as stated: MEASUREMENTS="red,red"
contains only members of the coverage's measurement list
["red","green","blue"] (first conjunct), yet the set-intersection
cardinality check deduplicates the request and validation fails with
InvalidParameterValue on measurements (second conjunct) — so failure is
not *exactly* "some token is not a member". -/
theorem c7_duplicate_measurements_counterexample :
    (∀ t ∈ pySplit "red,red" ',', t ∈ (["red", "green", "blue"] : List String)) ∧
    GetCoverageForm_clean (fun _ => none) (fun _ => some 0)
      ⟨some ⟨"ls8_usgs_sr_scene", -40, -10, 110, 150, 5, 9, ["2020-01-01"],
             ["red", "green", "blue"], ["GeoTIFF"]⟩,
       "", "2020-01-01", none, none, some 1, some (-1), some "GeoTIFF", "red,red"⟩ =
      CleanResult.errors [("measurements", "InvalidParameterValue")] :=
  ⟨by decide, by decide⟩

/-- C7 amended: for a request reaching the measurements gate,
validation fails with InvalidParameterValue on the measurements field
exactly when some comma-separated token is not a member of the
coverage's measurement list OR the token list contains duplicates (the
set-intersection cardinality check also rejects duplicates); otherwise
the validated measurement list equals the requested token list, and an
absent MEASUREMENTS defaults to the coverage's full list. -/
theorem c7_measurements_amended (floatP : String → Option ℚ) (dateP : String → Option Int)
    (cov : CoverageOffering) (d : GetCoverageData)
    (pr : (ℚ × ℚ) × (ℚ × ℚ)) (trts : List (Int × Int) × List Int) (rxy : ℚ × ℚ)
    (hcov : d.coverage = some cov)
    (hpresent : d.bbox ≠ "" ∨ d.time ≠ "")
    (hbb : bboxGate floatP cov d.bbox = .cont [] pr)
    (htg : timeGate dateP cov d.time = .cont [] trts)
    (hgg : gridGate pr.1 pr.2 d.resx d.resy d.width d.height = .cont [] rxy) :
    ((d.measurements ≠ "" ∧
        ((∃ t ∈ pySplit d.measurements ',', t ∉ cov.measurements) ∨
          ¬(pySplit d.measurements ',').Nodup)) →
      GetCoverageForm_clean floatP dateP d =
        CleanResult.errors [("measurements", "InvalidParameterValue")]) ∧
    ((d.measurements ≠ "" ∧ (∀ t ∈ pySplit d.measurements ',', t ∈ cov.measurements) ∧
        (pySplit d.measurements ',').Nodup) →
      GetCoverageForm_clean floatP dateP d =
        CleanResult.ok ⟨pr.1, pr.2, trts.1, trts.2, rxy.1, rxy.2, pySplit d.measurements ','⟩) ∧
    (d.measurements = "" →
      GetCoverageForm_clean floatP dateP d =
        CleanResult.ok ⟨pr.1, pr.2, trts.1, trts.2, rxy.1, rxy.2, cov.measurements⟩) := by
  have hmain : GetCoverageForm_clean floatP dateP d =
      (if (measGate cov d.measurements).1 = [] then
        CleanResult.ok ⟨pr.1, pr.2, trts.1, trts.2, rxy.1, rxy.2,
          (measGate cov d.measurements).2⟩
      else CleanResult.errors ((measGate cov d.measurements).1)) := by
    unfold GetCoverageForm_clean
    rw [hcov]
    dsimp only
    rw [if_neg (by rcases hpresent with h | h <;> simp [truthyStr, h])]
    rw [hbb]
    dsimp only
    rw [htg]
    dsimp only
    rw [hgg]
    simp
  refine ⟨?_, ?_, ?_⟩
  · rintro ⟨hm, hbad⟩
    have hcard : pyIntersectCard cov.measurements (pySplit d.measurements ',') ≠
        (pySplit d.measurements ',').length := by
      intro hq
      have hq' := (pyIntersectCard_eq_length_iff _ _).1 hq
      rcases hbad with ⟨t, htm, htn⟩ | hnd
      · exact htn (hq'.1 t htm)
      · exact hnd hq'.2
    have hmg : measGate cov d.measurements =
        ([("measurements", "InvalidParameterValue")], []) := by
      unfold measGate
      rw [if_pos (by simp [truthyStr, hm] : truthyStr d.measurements = true)]
      rw [if_pos hcard]
    rw [hmain, hmg]
    simp
  · rintro ⟨hm, hall, hnd⟩
    have hcard : pyIntersectCard cov.measurements (pySplit d.measurements ',') =
        (pySplit d.measurements ',').length :=
      (pyIntersectCard_eq_length_iff _ _).2 ⟨hall, hnd⟩
    have hmg : measGate cov d.measurements = ([], pySplit d.measurements ',') := by
      unfold measGate
      rw [if_pos (by simp [truthyStr, hm] : truthyStr d.measurements = true)]
      rw [if_neg (not_not_intro hcard)]
    rw [hmain, hmg]
    simp
  · intro hm
    have hmg : measGate cov d.measurements = ([], cov.measurements) := by
      unfold measGate
      rw [if_neg (by simp [truthyStr, hm])]
    rw [hmain, hmg]
    simp

/-- Closed witness for `c7_measurements_amended`: MEASUREMENTS
"red,green" (all valid, distinct) is accepted verbatim. -/
theorem c7_measurements_amended_witness :
    GetCoverageForm_clean (fun _ => none) (fun _ => some 0)
      ⟨some ⟨"ls8_usgs_sr_scene", -40, -10, 110, 150, 5, 9, ["2020-01-01"],
             ["red", "green", "blue"], ["GeoTIFF"]⟩,
       "", "2020-01-01", none, none, some 1, some (-1), some "GeoTIFF", "red,green"⟩ =
      CleanResult.ok ⟨((-40 : ℚ), (-10 : ℚ)), ((110 : ℚ), (150 : ℚ)), [], [0], 1, -1,
        pySplit "red,green" ','⟩ :=
  (c7_measurements_amended (fun _ => none) (fun _ => some 0)
    ⟨"ls8_usgs_sr_scene", -40, -10, 110, 150, 5, 9, ["2020-01-01"],
     ["red", "green", "blue"], ["GeoTIFF"]⟩
    ⟨some ⟨"ls8_usgs_sr_scene", -40, -10, 110, 150, 5, 9, ["2020-01-01"],
           ["red", "green", "blue"], ["GeoTIFF"]⟩,
     "", "2020-01-01", none, none, some 1, some (-1), some "GeoTIFF", "red,green"⟩
    ((-40, -10), (110, 150)) ([], [0]) (1, -1)
    rfl (Or.inr (by decide)) rfl (by decide) (by decide)).2.1
    ⟨by decide, by decide, by decide⟩

lemma bboxGate_shape (fP : String → Option ℚ) (cov : CoverageOffering) (b : String) :
    bboxGate fP cov b = .ret [("bbox", "InvalidParameterValue")] ∨
    bboxGate fP cov b = .crash [("bbox", "InvalidParameterValue")] ∨
    ∃ v, bboxGate fP cov b = .cont [] v := by
  unfold bboxGate
  by_cases h1 : truthyStr b = true
  · rw [if_pos h1]
    dsimp only
    by_cases h2 : (pySplit b ',').length = 4 ∨ (pySplit b ',').length = 6
    · rw [if_neg (not_not_intro h2)]
      rcases fP ((pySplit b ',').getD 1 "") with _ | a1 <;>
      rcases fP ((pySplit b ',').getD 3 "") with _ | a2 <;>
      rcases fP ((pySplit b ',').getD 0 "") with _ | a3 <;>
      rcases fP ((pySplit b ',').getD 2 "") with _ | a4 <;>
        first
        | (dsimp only; split_ifs <;> [exact Or.inl rfl; exact Or.inr (Or.inr ⟨_, rfl⟩)])
        | exact Or.inr (Or.inl rfl)
    · rw [if_pos h2]
      exact Or.inl rfl
  · rw [if_neg h1]
    exact Or.inr (Or.inr ⟨_, rfl⟩)

lemma timeGate_shape (dP : String → Option Int) (cov : CoverageOffering) (t : String) :
    timeGate dP cov t = .ret [("time", "InvalidParameterValue")] ∨
    timeGate dP cov t = .crash [] ∨
    (∃ v, timeGate dP cov t = .cont [] v) ∨
    (∃ v, timeGate dP cov t = .cont [("time", "InvalidParameterValue")] v) := by
  unfold timeGate
  by_cases h1 : truthyStr t = true
  · rw [if_pos h1]
    by_cases h2 : pyContains t '/' = true
    · rw [if_pos h2]
      cases parseTimeRanges dP (pySplit t ',')
      · exact Or.inr (Or.inr (Or.inl ⟨_, rfl⟩))
      · exact Or.inl rfl
      · exact Or.inr (Or.inl rfl)
    · rw [if_neg h2]
      cases parseAll dP (pySplit t ',')
      · exact Or.inl rfl
      · dsimp only
        split_ifs
        · exact Or.inr (Or.inr (Or.inr ⟨_, rfl⟩))
        · exact Or.inr (Or.inr (Or.inl ⟨_, rfl⟩))
  · rw [if_neg h1]
    exact Or.inr (Or.inr (Or.inl ⟨_, rfl⟩))

lemma gridGate_shape (lat lon : ℚ × ℚ) (rx ry : Option ℚ) (w h : Option Int) :
    gridGate lat lon rx ry w h =
      .ret [("resx", "InvalidParameterValue"), ("resy", "InvalidParameterValue")] ∨
    gridGate lat lon rx ry w h =
      .ret [("height", "InvalidParameterValue"), ("width", "InvalidParameterValue")] ∨
    gridGate lat lon rx ry w h =
      .ret [("resx", "MissingParameterValue"), ("resy", "MissingParameterValue"),
            ("height", "MissingParameterValue"), ("width", "MissingParameterValue")] ∨
    ∃ v, gridGate lat lon rx ry w h = .cont [] v := by
  unfold gridGate
  split_ifs
  · exact Or.inl rfl
  · exact Or.inr (Or.inr (Or.inr ⟨_, rfl⟩))
  · exact Or.inr (Or.inl rfl)
  · exact Or.inr (Or.inr (Or.inr ⟨_, rfl⟩))
  · exact Or.inr (Or.inr (Or.inl rfl))

lemma measGate_shape (cov : CoverageOffering) (m : String) :
    measGate cov m = ([("measurements", "InvalidParameterValue")], []) ∨
    ∃ l, measGate cov m = ([], l) := by
  unfold measGate
  split_ifs
  · exact Or.inl rfl
  · exact Or.inr ⟨_, rfl⟩
  · exact Or.inr ⟨_, rfl⟩

lemma clean_error_codes (fP : String → Option ℚ) (dP : String → Option Int)
    (d : GetCoverageData) (e : List Err)
    (hres : GetCoverageForm_clean fP dP d = .errors e ∨
      GetCoverageForm_clean fP dP d = .crash e) :
    ∀ p ∈ e, p.2 = "MissingParameterValue" ∨ p.2 = "InvalidParameterValue" := by
  intro p hp
  unfold GetCoverageForm_clean at hres
  rcases hd : d.coverage with _ | cov <;> rw [hd] at hres <;> (try dsimp only at hres)
  · rcases hres with h | h
    · injection h with h'; subst h'; fin_cases hp <;> simp
    · exact absurd h (by simp)
  · by_cases hpres : (!(truthyStr d.bbox || truthyStr d.time)) = true
    · rw [if_pos hpres] at hres
      rcases hres with h | h
      · injection h with h'; subst h'; fin_cases hp <;> simp
      · exact absurd h (by simp)
    · rw [if_neg hpres] at hres
      rcases bboxGate_shape fP cov d.bbox with hb | hb | ⟨v, hb⟩ <;> rw [hb] at hres <;>
        (try dsimp only at hres)
      · rcases hres with h | h
        · injection h with h'; subst h'; fin_cases hp <;> simp
        · exact absurd h (by simp)
      · rcases hres with h | h
        · exact absurd h (by simp)
        · injection h with h'; subst h'; fin_cases hp <;> simp
      · rcases timeGate_shape dP cov d.time with htg | htg | ⟨w, htg⟩ | ⟨w, htg⟩ <;>
          rw [htg] at hres <;>
          simp only [List.nil_append, List.cons_append, List.append_nil] at hres <;>
          (try dsimp only at hres)
        · rcases hres with h | h
          · injection h with h'; subst h'; fin_cases hp <;> simp
          · exact absurd h (by simp)
        · rcases hres with h | h
          · exact absurd h (by simp)
          · injection h with h'; subst h'; fin_cases hp
        · rcases gridGate_shape v.1 v.2 d.resx d.resy d.width d.height with
            hg | hg | hg | ⟨u, hg⟩ <;> rw [hg] at hres <;>
            simp only [List.nil_append, List.cons_append, List.append_nil] at hres <;>
            (try dsimp only at hres)
          · rcases hres with h | h
            · injection h with h'; subst h'; fin_cases hp <;> simp
            · exact absurd h (by simp)
          · rcases hres with h | h
            · injection h with h'; subst h'; fin_cases hp <;> simp
            · exact absurd h (by simp)
          · rcases hres with h | h
            · injection h with h'; subst h'; fin_cases hp <;> simp
            · exact absurd h (by simp)
          · rcases measGate_shape cov d.measurements with hm | ⟨l, hm⟩ <;>
              rw [hm] at hres <;>
              simp only [List.nil_append, List.cons_append, List.append_nil] at hres <;>
              (try dsimp only at hres)
            · rw [if_neg (by simp)] at hres
              rcases hres with h | h
              · injection h with h'; subst h'; fin_cases hp <;> simp
              · exact absurd h (by simp)
            · simp only [if_true] at hres
              rcases hres with h | h
              · exact absurd h (by simp)
              · exact absurd h (by simp)
        · rcases gridGate_shape v.1 v.2 d.resx d.resy d.width d.height with
            hg | hg | hg | ⟨u, hg⟩ <;> rw [hg] at hres <;>
            simp only [List.nil_append, List.cons_append, List.append_nil] at hres <;>
            (try dsimp only at hres)
          · rcases hres with h | h
            · injection h with h'; subst h'; fin_cases hp <;> simp
            · exact absurd h (by simp)
          · rcases hres with h | h
            · injection h with h'; subst h'; fin_cases hp <;> simp
            · exact absurd h (by simp)
          · rcases hres with h | h
            · injection h with h'; subst h'; fin_cases hp <;> simp
            · exact absurd h (by simp)
          · rcases measGate_shape cov d.measurements with hm | ⟨l, hm⟩ <;>
              rw [hm] at hres <;>
              simp only [List.nil_append, List.cons_append, List.append_nil] at hres <;>
              (try dsimp only at hres)
            · rw [if_neg (by simp)] at hres
              rcases hres with h | h
              · injection h with h'; subst h'; fin_cases hp <;> simp
              · exact absurd h (by simp)
            · rw [if_neg (by simp)] at hres
              rcases hres with h | h
              · injection h with h'; subst h'; fin_cases hp <;> simp
              · exact absurd h (by simp)

/-- C8 counterexample to the claim as stated: the `format` ChoiceField
validates against the global `AVAILABLE_FORMATS` (GeoTIFF, netCDF), not
the coverage's advertised format list.  For a coverage advertising only
["GeoTIFF"], FORMAT="netCDF" is not among the coverage's formats (first
conjunct) yet the whole form validates successfully (second conjunct)
instead of failing with InvalidFormat. -/
theorem c8_coverage_format_counterexample :
    ("netCDF" ∉ (["GeoTIFF"] : List String)) ∧
    validateGetCoverage (fun _ => none) (fun _ => some 0)
      ⟨some ⟨"ls8_usgs_sr_scene", -40, -10, 110, 150, 5, 9, ["2020-01-01"],
             ["red"], ["GeoTIFF"]⟩,
       "", "2020-01-01", none, none, some 1, some (-1), some "netCDF", ""⟩ =
      FormResult.ok "netCDF" ⟨(-40, -10), (110, 150), [], [0], 1, -1, ["red"]⟩ :=
  ⟨by decide, by decide⟩

/-- C8 amended: a missing FORMAT, or a FORMAT outside the globally
configured formats (GeoTIFF, netCDF), fails field validation with
InvalidFormat — the per-coverage advertised format list is never
consulted — and FORMAT is the only field producing that code: every
error the validator `clean` records carries the code
MissingParameterValue or InvalidParameterValue, never InvalidFormat. -/
theorem c8_format_amended :
    (∀ fmt : Option String,
      (fmt = none ∨ ∀ f, fmt = some f → f ∉ AVAILABLE_FORMATS) →
      format_field_errors fmt = [("format", "InvalidFormat")]) ∧
    (∀ (floatP : String → Option ℚ) (dateP : String → Option Int) (d : GetCoverageData)
        (errs : List Err),
      (GetCoverageForm_clean floatP dateP d = CleanResult.errors errs ∨
        GetCoverageForm_clean floatP dateP d = CleanResult.crash errs) →
      ∀ p ∈ errs, p.2 ≠ "InvalidFormat") := by
  constructor
  · rintro fmt (rfl | h)
    · rfl
    · rcases fmt with _ | f
      · rfl
      · have hf := h f rfl
        simp [format_field_errors, hf]
  · intro fP dP d errs hres p hp
    rcases clean_error_codes fP dP d errs hres p hp with h | h <;> simp [h]

/-- Closed witness for `c8_format_amended`: missing FORMAT and
FORMAT="JPEG" both yield InvalidFormat, and a bbox validation error
carries a code other than InvalidFormat. -/
theorem c8_format_amended_witness :
    format_field_errors none = [("format", "InvalidFormat")] ∧
    format_field_errors (some "JPEG") = [("format", "InvalidFormat")] ∧
    (∀ p ∈ [(("bbox" : String), ("InvalidParameterValue" : String))],
      p.2 ≠ "InvalidFormat") :=
  ⟨c8_format_amended.1 none (Or.inl rfl),
   c8_format_amended.1 (some "JPEG") (Or.inr (by intro f hf; cases hf; decide)),
   c8_format_amended.2 (fun _ => none) (fun _ => none)
     ⟨some ⟨"ls8_usgs_sr_scene", -40, -10, 110, 150, 5, 9, ["2020-01-01"],
            ["red", "green", "blue"], ["GeoTIFF"]⟩,
      "1,2,3", "", some 100, some 100, none, none, some "GeoTIFF", ""⟩
     [("bbox", "InvalidParameterValue")] (Or.inl (by decide))⟩

/-- C9 counterexample to the claim as stated: SERVICE="WMS" is not
"WCS", but the base form accepts it (it is a declared choice) and the
router's `view_mapping` lookup then raises an uncaught KeyError — the
request neither dispatches nor returns a ServiceException with
InvalidParameterValue. -/
theorem c9_wms_counterexample :
    WebService_get (some "WMS") (some "GetCapabilities") = RouteResult.crash ∧
    WebService_get (some "WMS") (some "GetCapabilities") ≠
      RouteResult.exception "InvalidParameterValue" :=
  ⟨by decide, by decide⟩

/-- C9 amended: when the base request form rejects the pair (SERVICE
not a case-sensitive member of {WCS, WMS}, or REQUEST not one of the
three case-sensitive request names, either missing), the router renders
a ServiceException with code InvalidParameterValue and does not
dispatch; SERVICE="WMS" with a valid REQUEST is accepted by the form
but crashes with an uncaught KeyError; dispatch happens exactly for
SERVICE="WCS" with a valid REQUEST. -/
theorem c9_routing_amended :
    (∀ service request_ : Option String,
      base_request_form_valid service request_ = false →
      WebService_get service request_ = RouteResult.exception "InvalidParameterValue") ∧
    (∀ request_ : Option String, optChoice request_ REQUEST_CHOICES = true →
      WebService_get (some "WMS") request_ = RouteResult.crash) ∧
    (∀ r : String, r ∈ REQUEST_CHOICES →
      WebService_get (some "WCS") (some r) = RouteResult.dispatch "WCS" r) := by
  refine ⟨?_, ?_, ?_⟩
  · intro s r h
    simp [WebService_get, h]
  · intro r h
    rcases r with _ | rv
    · simp [optChoice] at h
    · simp only [optChoice] at h
      simp [WebService_get, base_request_form_valid, optChoice, SERVICE_CHOICES, h]
  · intro r hr
    simp only [REQUEST_CHOICES, List.mem_cons, List.not_mem_nil, or_false] at hr
    rcases hr with rfl | rfl | rfl <;> decide

/-- Closed witness for `c9_routing_amended`: the lowercase service
"wcs" gets a ServiceException, SERVICE="WMS" crashes, SERVICE="WCS"
dispatches. -/
theorem c9_routing_amended_witness :
    WebService_get (some "wcs") (some "GetCapabilities") =
      RouteResult.exception "InvalidParameterValue" ∧
    WebService_get (some "WMS") (some "GetCoverage") = RouteResult.crash ∧
    WebService_get (some "WCS") (some "DescribeCoverage") =
      RouteResult.dispatch "WCS" "DescribeCoverage" :=
  ⟨c9_routing_amended.1 (some "wcs") (some "GetCapabilities") (by decide),
   c9_routing_amended.2.1 (some "GetCoverage") (by decide),
   c9_routing_amended.2.2 "DescribeCoverage" (by decide)⟩

/-- C10 counterexample to the claim as stated: WIDTH is present with
value 0, yet the request does not fail with MissingParameterValue — the
truthiness test skips the zero-valued width/height pairing and the
supplied resx/resy pairing is used, so validation succeeds. -/
theorem c10_zero_width_counterexample :
    GetCoverageForm_clean (fun _ => none) (fun _ => some 0)
      ⟨some ⟨"ls8_usgs_sr_scene", -40, -10, 110, 150, 5, 9, ["2020-01-01"],
             ["red"], ["GeoTIFF"]⟩,
       "", "2020-01-01", some 0, some 100, some 1, some (-1), some "GeoTIFF", ""⟩ =
      CleanResult.ok ⟨(-40, -10), (110, 150), [], [0], 1, -1, ["red"]⟩ := by
  decide

/-- C10 amended: a pairing holding a zero (or absent) value is treated
as not fully supplied by the truthiness tests.  Whenever the
width/height-derived resolution is produced, width and height are
strictly positive, so the derivation never divides by zero; and when a
zero-valued field disables a pairing while the other pairing is not
usable either, validation fails with MissingParameterValue on resx,
resy, height and width. -/
theorem c10_grid_zero_amended (lat lon : ℚ × ℚ) (rx ry : Option ℚ) (w h : Option Int) :
    (∀ out, ¬(truthyQ rx = true ∧ truthyQ ry = true) →
      gridGate lat lon rx ry w h = GateStep.cont [] out →
      ∃ wv hv, w = some wv ∧ h = some hv ∧ 0 < wv ∧ 0 < hv ∧
        out = ((lon.2 - lon.1) / (wv : ℚ), -1 * (lat.2 - lat.1) / (hv : ℚ))) ∧
    ((w = some 0 ∨ h = some 0) → ¬(truthyQ rx = true ∧ truthyQ ry = true) →
      gridGate lat lon rx ry w h =
        GateStep.ret [("resx", "MissingParameterValue"), ("resy", "MissingParameterValue"),
          ("height", "MissingParameterValue"), ("width", "MissingParameterValue")]) ∧
    ((rx = some 0 ∨ ry = some 0) → ¬(truthyInt w = true ∧ truthyInt h = true) →
      gridGate lat lon rx ry w h =
        GateStep.ret [("resx", "MissingParameterValue"), ("resy", "MissingParameterValue"),
          ("height", "MissingParameterValue"), ("width", "MissingParameterValue")]) := by
  refine ⟨?_, ?_, ?_⟩
  · intro out hrxy hg
    unfold gridGate at hg
    rw [if_neg (by simpa [Bool.and_eq_true] using hrxy)] at hg
    by_cases hwh : (truthyInt w && truthyInt h) = true
    · rw [if_pos hwh] at hg
      by_cases hsign : (decide (h.getD 0 < 0) || decide (w.getD 0 < 0)) = true
      · rw [if_pos hsign] at hg
        exact absurd hg (by simp)
      · rw [if_neg hsign] at hg
        injection hg with h1 h2
        simp only [Bool.and_eq_true, truthyInt, decide_eq_true_eq] at hwh
        simp only [Bool.or_eq_true, decide_eq_true_eq, not_or, not_lt] at hsign
        rcases w with _ | wv
        · exact absurd rfl hwh.1
        · rcases h with _ | hv
          · exact absurd rfl hwh.2
          · refine ⟨wv, hv, rfl, rfl, ?_, ?_, h2.symm⟩
            · rcases lt_or_eq_of_le hsign.2 with hlt | heq
              · exact hlt
              · exact absurd heq.symm hwh.1
            · rcases lt_or_eq_of_le hsign.1 with hlt | heq
              · exact hlt
              · exact absurd heq.symm hwh.2
    · rw [if_neg hwh] at hg
      exact absurd hg (by simp)
  · intro hw0 hrxy
    unfold gridGate
    rw [if_neg (by simpa [Bool.and_eq_true] using hrxy)]
    rcases hw0 with h0 | h0 <;> rw [if_neg (by simp [truthyInt, h0])]
  · intro hr0 hwh
    unfold gridGate
    rw [if_neg (by rcases hr0 with h0 | h0 <;> simp [truthyQ, h0])]
    rw [if_neg (by simpa [Bool.and_eq_true] using hwh)]

/-- Closed witness for `c10_grid_zero_amended`: a zero width with
height 5 and no resx/resy yields the four MissingParameterValue
entries; a zero resx with no width/height does the same; and a
successful width/height derivation at width 2, height 1 has strictly
positive divisors. -/
theorem c10_grid_zero_amended_witness :
    gridGate ((0 : ℚ), 1) ((0 : ℚ), 2) none none (some 0) (some 5) =
      GateStep.ret [("resx", "MissingParameterValue"), ("resy", "MissingParameterValue"),
        ("height", "MissingParameterValue"), ("width", "MissingParameterValue")] ∧
    gridGate ((0 : ℚ), 1) ((0 : ℚ), 2) (some 0) (some (-1)) none none =
      GateStep.ret [("resx", "MissingParameterValue"), ("resy", "MissingParameterValue"),
        ("height", "MissingParameterValue"), ("width", "MissingParameterValue")] ∧
    (∃ wv hv, (some (2 : Int)) = some wv ∧ (some (1 : Int)) = some hv ∧
      0 < wv ∧ 0 < hv ∧
      (((1 : ℚ), (-1 : ℚ))) = (((2 : ℚ) - 0) / (wv : ℚ), -1 * ((1 : ℚ) - 0) / (hv : ℚ))) :=
  ⟨(c10_grid_zero_amended ((0 : ℚ), 1) ((0 : ℚ), 2) none none (some 0) (some 5)).2.1
     (Or.inl rfl) (by simp [truthyQ]),
   (c10_grid_zero_amended ((0 : ℚ), 1) ((0 : ℚ), 2) (some 0) (some (-1)) none none).2.2
     (Or.inl rfl) (by simp [truthyInt]),
   (c10_grid_zero_amended ((0 : ℚ), 1) ((0 : ℚ), 2) none none (some 2) (some 1)).1
     (1, -1) (by simp [truthyQ])
     (by simp [gridGate, truthyQ, truthyInt])⟩
